import Mathlib

/-! Shallow embedding of the currently_listening repository (Go) for checking
its natural-language specification.

Server side (server/main.go): the global state consists of three variables
(currentlyListeningSong, currentTimeStamp, isCurrentlyPlaying), mutated by
the POST handlers for /set-listening and /clear-listening.  The handlers
are modelled as pure functions from the pre-state and the decoded request
body (an Option: none models a body that json.Decode rejects) to an
outcome record holding the post-state, the list of websocket broadcasts
issued, and the HTTP reply written.  json.Marshal of these structs cannot
fail in Go (only strings, ints and bools), so serialization is total here.
Go string slicing s[0:10], which panics when the string is shorter than
10 bytes, is modelled by goStringSlice returning none in that case, and
a handler that panics before writing its reply is HttpReply.panicked.

Client side (listenbrainz_client/main.go): one iteration of the polling
loop in pollListenbrainz is the function pollCycle, parameterised by the
outcome of the upstream HTTP fetch and by the network outcome of the push
to the server (serverRequest).  log.Fatalf, which terminates the process,
is modelled by the fatal flag of the cycle result.
-/

namespace CurrentlyListening

/-- Go struct currently_listening.SetListening (unnamed/part_000). -/
structure SetListening where
  Artist : String
  Album : String
  Title : String
  StartedAt : Int
  Base64Image : String
deriving Repr, DecidableEq

/-- Go struct currently_listening.ClearListening (unnamed/part_000). -/
structure ClearListening where
  EndedAt : Int
deriving Repr, DecidableEq

/-- The three global state variables of server/main.go (lines 38-40). -/
structure ServerState where
  currentlyListeningSong : Option SetListening
  currentTimeStamp : Option Int
  isCurrentlyPlaying : Bool
deriving Repr, DecidableEq

/-- Zero values of the Go globals at process start. -/
def initialState : ServerState := ⟨none, none, false⟩

/-- Go struct CurrentlyListeningResponse (server/main.go lines 15-18). -/
structure CurrentlyListeningResponse where
  Song : Option SetListening
  Playing : Bool
deriving Repr, DecidableEq

/-- Go struct WebsocketResponse (server/main.go lines 20-23); for the
currently-listening envelope the Data field always holds a
CurrentlyListeningResponse. -/
structure WebsocketResponse where
  MsgType : String
  Data : CurrentlyListeningResponse
deriving Repr, DecidableEq

/-- The closure currentlyListeningJSON (server/main.go lines 42-56):
serializes the snapshot envelope from the current globals. -/
def currentlyListeningJSON (s : ServerState) : WebsocketResponse :=
  ⟨"currently-listening", ⟨s.currentlyListeningSong, s.isCurrentlyPlaying⟩⟩

/-- An HTTP reply written by a handler, or a panic that prevents any
reply from being written. -/
inductive HttpReply where
  | reply (status : Nat) (body : String)
  | panicked
deriving Repr, DecidableEq

/-- Status of a reply, none when the handler panicked. -/
def replyStatus : HttpReply → Option Nat
  | HttpReply.reply st _ => some st
  | HttpReply.panicked => none

/-- Result of running one POST handler: the post-state of the globals,
the broadcasts issued to the websocket hub, and the HTTP reply. -/
structure HandlerOutcome where
  state : ServerState
  broadcasts : List WebsocketResponse
  response : HttpReply
deriving Repr, DecidableEq

/-- Go string slicing str[lo:hi]: defined only when lo ≤ hi ≤ len(str),
otherwise Go panics with slice bounds out of range. -/
def goStringSlice (str : String) (lo hi : Nat) : Option String :=
  if lo ≤ hi ∧ hi ≤ str.length then
    some (String.mk ((str.toList.drop lo).take (hi - lo)))
  else
    none

/-- The stale check of the /set-listening handler (server/main.go line
124): currentlyListeningSong != nil && currentTimeStamp != nil &&
cur.StartedAt < *currentTimeStamp. -/
def setIsStale (s : ServerState) (t : Int) : Bool :=
  match s.currentlyListeningSong, s.currentTimeStamp with
  | some _, some ts => decide (t < ts)
  | _, _ => false

/-- The stale check of the /clear-listening handler (server/main.go line
166): currentTimeStamp != nil && cur.EndedAt < *currentTimeStamp. -/
def clearIsStale (s : ServerState) (t : Int) : Bool :=
  match s.currentTimeStamp with
  | some ts => decide (t < ts)
  | none => false

/-- The success path of /set-listening (server/main.go lines 132-148):
replace the record, set the timestamp, set playing, broadcast the new
snapshot, then build the reply message, whose Base64Image[0:10] slice
panics when the image string is shorter than 10 bytes (the broadcast has
already been sent at that point). -/
def setSuccess (cur : SetListening) : HandlerOutcome :=
  let s : ServerState := ⟨some cur, some cur.StartedAt, true⟩
  let bc := currentlyListeningJSON s
  match goStringSlice cur.Base64Image 0 10 with
  | some pre =>
    ⟨s, [bc], HttpReply.reply 200
      ("Set currently playing song to Artist: " ++ cur.Artist ++ ", Album: "
        ++ cur.Album ++ ", Title: " ++ cur.Title ++ ", Image " ++ pre)⟩
  | none => ⟨s, [bc], HttpReply.panicked⟩

/-- The /set-listening handler after method and password checks
(server/main.go lines 114-148), as a function of the decoded body
(none when json.Decode fails). -/
def setListeningHandler (s : ServerState) (body : Option SetListening) : HandlerOutcome :=
  match body with
  | none => ⟨s, [], HttpReply.reply 500 "error parsing JSON body"⟩
  | some cur =>
    match s.currentlyListeningSong, s.currentTimeStamp with
    | some _, some ts =>
      if cur.StartedAt < ts then
        ⟨s, [], HttpReply.reply 400
          ("cannot set currently playing song, started before latest known timestamp (started at "
            ++ toString cur.StartedAt ++ ", latest timestamp " ++ toString ts ++ ")")⟩
      else setSuccess cur
    | _, _ => setSuccess cur

/-- The success path of /clear-listening (server/main.go lines 174-190). -/
def clearSuccess (cur : ClearListening) : HandlerOutcome :=
  let s : ServerState := ⟨none, some cur.EndedAt, false⟩
  ⟨s, [currentlyListeningJSON s], HttpReply.reply 200 "Unset currently listening song"⟩

/-- The /clear-listening handler after method and password checks
(server/main.go lines 156-190). -/
def clearListeningHandler (s : ServerState) (body : Option ClearListening) : HandlerOutcome :=
  match body with
  | none => ⟨s, [], HttpReply.reply 500 "error parsing JSON body"⟩
  | some cur =>
    match s.currentTimeStamp with
    | some ts =>
      if cur.EndedAt < ts then
        ⟨s, [], HttpReply.reply 400
          ("cannot clear currently playing song, started before latest known timestamp (started at "
            ++ toString cur.EndedAt ++ ", latest timestamp " ++ toString ts ++ ")")⟩
      else clearSuccess cur
    | none => clearSuccess cur

/-- One admitted-or-rejected operation against the store: a decoded
set-listening or clear-listening request. -/
inductive Op where
  | set (cur : SetListening)
  | clear (cur : ClearListening)
deriving Repr, DecidableEq

/-- The event time each operation carries (StartedAt for set, EndedAt
for clear). -/
def Op.eventTime : Op → Int
  | Op.set cur => cur.StartedAt
  | Op.clear cur => cur.EndedAt

/-- Whether the operation is a clear. -/
def Op.isClear : Op → Bool
  | Op.set _ => false
  | Op.clear _ => true

/-- Run one operation through the matching handler. -/
def applyOp (s : ServerState) (op : Op) : HandlerOutcome :=
  match op with
  | Op.set cur => setListeningHandler s (some cur)
  | Op.clear cur => clearListeningHandler s (some cur)

/-- The store state after a sequence of operations starting from the
empty initial state. -/
def runOps (ops : List Op) : ServerState :=
  ops.foldl (fun s op => (applyOp s op).state) initialState

/-- Structural invariant of the server globals: isCurrentlyPlaying holds
exactly when a song is stored, and a stored song implies a stored
timestamp. -/
def storeInv (s : ServerState) : Prop :=
  s.isCurrentlyPlaying = s.currentlyListeningSong.isSome ∧
    (s.currentlyListeningSong.isSome → s.currentTimeStamp.isSome)

/-- The anonymous track_metadata struct of ListenBrainzListen
(listenbrainz_client/main.go lines 16-22). -/
structure TrackMetadata where
  Artist_name : String
  Track_name : String
  Release_name : String
deriving Repr, DecidableEq

/-- Go struct ListenBrainzListen (listenbrainz_client/main.go). -/
structure ListenBrainzListen where
  track_metadata : TrackMetadata
deriving Repr, DecidableEq

/-- Go func ListenChanged (listenbrainz_client/main.go lines 24-26):
note the conjunction of the three inequalities, as written in the code. -/
def ListenChanged (c : SetListening) (l : ListenBrainzListen) : Bool :=
  (c.Artist != l.track_metadata.Artist_name) &&
    (c.Album != l.track_metadata.Release_name) &&
    (c.Title != l.track_metadata.Track_name)

/-- Go struct ListenBrainzPayload (listenbrainz_client/main.go lines 28-32). -/
structure ListenBrainzPayload where
  Playing_now : Bool
  Count : Int
  Listens : List ListenBrainzListen
deriving Repr, DecidableEq

/-- Go struct ListenBrainzResponse (listenbrainz_client/main.go lines 34-36). -/
structure ListenBrainzResponse where
  Payload : ListenBrainzPayload
deriving Repr, DecidableEq

/-- Method NoSongPlaying (listenbrainz_client/main.go lines 38-40). -/
def NoSongPlaying (p : ListenBrainzResponse) : Bool :=
  p.Payload.Listens.length == 0

/-- Method CurrentlyPlaying (listenbrainz_client/main.go lines 42-50). -/
def CurrentlyPlaying (p : ListenBrainzResponse) : Option ListenBrainzListen :=
  if p.Payload.Count = 0 then none
  else if p.Payload.Listens.length > 0 && p.Payload.Playing_now then
    p.Payload.Listens.head?
  else none

/-- Network outcome of the POST issued inside serverRequest
(listenbrainz_client/main.go lines 80-91): either client.Do returns an
error, or an HTTP response with some status arrives and reading its body
succeeds or fails. -/
inductive HttpResult where
  | netError
  | response (status : Nat) (readOk : Bool)
deriving Repr, DecidableEq

/-- How a serverRequest call ends: fatal models log.Fatalf (process
terminates), ok models returning nil. -/
inductive ServerRequestOutcome where
  | fatal
  | ok
deriving Repr, DecidableEq

/-- The closure serverRequest (listenbrainz_client/main.go lines 62-94),
as a function of the network outcome.  json.Marshal of SetListening or
ClearListening and http.NewRequest cannot fail for these inputs, so the
early error returns are unreachable; a client.Do error and a body-read
error hit log.Fatalf; a non-200 status only prints to stderr and the
call still returns nil. -/
def serverRequest (net : HttpResult) : ServerRequestOutcome :=
  match net with
  | HttpResult.netError => ServerRequestOutcome.fatal
  | HttpResult.response _ readOk =>
    if readOk then ServerRequestOutcome.ok else ServerRequestOutcome.fatal

/-- A push the loop issues to the server ingress endpoints. -/
inductive ServerCall where
  | setListening (cur : SetListening)
  | clearListening (cur : ClearListening)
deriving Repr, DecidableEq

/-- How the body of the upstream playing-now response decodes
(listenbrainz_client/main.go lines 114-124): json decode error, a nil
decoded pointer, or a ListenBrainzResponse value. -/
inductive BodyDecode where
  | failure
  | nilResp
  | ok (resp : ListenBrainzResponse)
deriving Repr, DecidableEq

/-- Result of one iteration of the polling loop: the belief variable
currentlyPlaying afterwards, the pushes issued to the server, and
whether the iteration hit log.Fatalf (fatal = true) instead of sleeping
and continuing. -/
structure CycleResult where
  currentlyPlaying : Option SetListening
  calls : List ServerCall
  fatal : Bool
deriving Repr, DecidableEq

/-- One iteration of the for-loop of pollListenbrainz
(listenbrainz_client/main.go lines 100-172).  fetch is the outcome of
http.Get on the playing-now URL: none models a connection error, some
(status, body) an HTTP response with that status whose body decodes as
given.  now is the time.Now().Unix() value the iteration would use, and
pushNet the network outcome of the serverRequest call, if one is made.
Belief updates follow the code order: the clear branch resets the belief
only after serverRequest returns, while the set branch assigns the new
record before calling serverRequest. -/
def pollCycle (currentlyPlaying : Option SetListening) (now : Int)
    (fetch : Option (Nat × BodyDecode)) (pushNet : HttpResult) : CycleResult :=
  match fetch with
  | none => ⟨currentlyPlaying, [], false⟩
  | some (status, body) =>
    if status ≠ 200 then ⟨currentlyPlaying, [], false⟩
    else
      match body with
      | BodyDecode.failure => ⟨currentlyPlaying, [], true⟩
      | BodyDecode.nilResp => ⟨currentlyPlaying, [], true⟩
      | BodyDecode.ok resp =>
        if NoSongPlaying resp && currentlyPlaying.isSome then
          match serverRequest pushNet with
          | ServerRequestOutcome.fatal =>
            ⟨currentlyPlaying, [ ServerCall.clearListening ⟨now⟩], true⟩
          | ServerRequestOutcome.ok =>
            ⟨none, [ServerCall.clearListening ⟨now⟩], false⟩
        else
          match CurrentlyPlaying resp with
          | some lcur =>
            let update : Bool :=
              match currentlyPlaying with
              | none => true
              | some c => ListenChanged c lcur
            if update then
              let newRec : SetListening :=
                ⟨lcur.track_metadata.Artist_name, lcur.track_metadata.Release_name,
                  lcur.track_metadata.Track_name, now, ""⟩
              match serverRequest pushNet with
              | ServerRequestOutcome.fatal =>
                ⟨some newRec, [ServerCall.setListening newRec], true⟩
              | ServerRequestOutcome.ok =>
                ⟨some newRec, [ServerCall.setListening newRec], false⟩
            else ⟨currentlyPlaying, [], false⟩
          | none => ⟨currentlyPlaying, [], false⟩

/-! Helper lemmas -/

theorem setSuccess_state (cur : SetListening) :
    (setSuccess cur).state = ⟨some cur, some cur.StartedAt, true⟩ := by
  unfold setSuccess
  cases goStringSlice cur.Base64Image 0 10 <;> rfl

theorem setSuccess_broadcasts (cur : SetListening) :
    (setSuccess cur).broadcasts
      = [currentlyListeningJSON ⟨some cur, some cur.StartedAt, true⟩] := by
  unfold setSuccess
  cases goStringSlice cur.Base64Image 0 10 <;> rfl

theorem storeInv_initial : storeInv initialState := by
  constructor <;> simp [initialState, storeInv]

theorem storeInv_setSuccess (cur : SetListening) : storeInv (setSuccess cur).state := by
  rw [setSuccess_state]
  exact ⟨rfl, fun _ => rfl⟩

theorem storeInv_clearSuccess (cur : ClearListening) :
    storeInv (clearSuccess cur).state :=
  ⟨rfl, fun _ => rfl⟩

theorem storeInv_applyOp (s : ServerState) (op : Op) (h : storeInv s) :
    storeInv (applyOp s op).state := by
  obtain ⟨song, ts, playing⟩ := s
  cases op with
  | set cur =>
    cases song <;> cases ts <;> simp only [applyOp, setListeningHandler]
    · exact storeInv_setSuccess cur
    · exact storeInv_setSuccess cur
    · exact storeInv_setSuccess cur
    · split
      · exact h
      · exact storeInv_setSuccess cur
  | clear cur =>
    cases ts <;> simp only [applyOp, clearListeningHandler]
    · exact storeInv_clearSuccess cur
    · split
      · exact h
      · exact storeInv_clearSuccess cur

theorem storeInv_foldl (ops : List Op) (s : ServerState) (h : storeInv s) :
    storeInv (ops.foldl (fun s op => (applyOp s op).state) s) := by
  induction ops generalizing s with
  | nil => exact h
  | cons op rest ih => exact ih _ (storeInv_applyOp s op h)

theorem storeInv_runOps (ops : List Op) : storeInv (runOps ops) :=
  storeInv_foldl ops initialState storeInv_initial

/-! Claim theorems -/

/-- C1: a decoded POST /set-listening request, against any well-formed
store state, replaces the record, sets isCurrentlyPlaying, sets the
timestamp to the request StartedAt and issues exactly one broadcast of
the new snapshot if and only if no record is stored or the request
StartedAt is at least the stored timestamp; otherwise the handler
replies 400 and leaves state, playing flag and timestamp unchanged with
no broadcast. -/
theorem set_admission_iff_fresh (s : ServerState) (cur : SetListening)
    (hwf : s.currentlyListeningSong.isSome → s.currentTimeStamp.isSome) :
    ((s.currentlyListeningSong = none ∨
        ∃ ts, s.currentTimeStamp = some ts ∧ ts ≤ cur.StartedAt) →
      (setListeningHandler s (some cur)).state = ⟨some cur, some cur.StartedAt, true⟩ ∧
      (setListeningHandler s (some cur)).broadcasts
        = [currentlyListeningJSON ⟨some cur, some cur.StartedAt, true⟩]) ∧
    (¬ (s.currentlyListeningSong = none ∨
        ∃ ts, s.currentTimeStamp = some ts ∧ ts ≤ cur.StartedAt) →
      (setListeningHandler s (some cur)).state = s ∧
      (setListeningHandler s (some cur)).broadcasts = [] ∧
      ∃ m, (setListeningHandler s (some cur)).response = HttpReply.reply 400 m) := by
  obtain ⟨song, ts, playing⟩ := s
  cases song with
  | none =>
    refine ⟨fun _ => ?_, fun hfresh => absurd (Or.inl rfl) hfresh⟩
    cases ts <;>
      simp only [setListeningHandler] <;>
      exact ⟨setSuccess_state cur, setSuccess_broadcasts cur⟩
  | some r =>
    cases ts with
    | none => simp at hwf
    | some t =>
      by_cases hlt : cur.StartedAt < t
      · refine ⟨fun hfresh => ?_, fun _ => ?_⟩
        · rcases hfresh with h | ⟨ts', hts', hle⟩
          · simp at h
          · simp only [Option.some.injEq] at hts'
            omega
        · refine ⟨?_, ?_, ?_⟩
          · simp [setListeningHandler, hlt]
          · simp [setListeningHandler, hlt]
          · exact ⟨"cannot set currently playing song, started before latest known timestamp (started at "
                ++ toString cur.StartedAt ++ ", latest timestamp " ++ toString t ++ ")",
              by simp [setListeningHandler, hlt]⟩
      · refine ⟨fun _ => ?_, fun hfresh => ?_⟩
        · simp only [setListeningHandler, if_neg hlt]
          exact ⟨setSuccess_state cur, setSuccess_broadcasts cur⟩
        · exact absurd (Or.inr ⟨t, rfl, by omega⟩) hfresh

/-- Witness for C1 at a concrete fresh input. -/
theorem set_admission_iff_fresh_witness :
    (initialState.currentlyListeningSong.isSome → initialState.currentTimeStamp.isSome) ∧
    (initialState.currentlyListeningSong = none ∨
      ∃ ts, initialState.currentTimeStamp = some ts ∧ ts ≤ (100 : Int)) ∧
    (setListeningHandler initialState (some ⟨"a", "b", "t", 100, "0123456789"⟩)).state
      = ⟨some ⟨"a", "b", "t", 100, "0123456789"⟩, some 100, true⟩ :=
  ⟨by simp [initialState],
    Or.inl rfl,
    ((set_admission_iff_fresh initialState ⟨"a", "b", "t", 100, "0123456789"⟩
      (by simp [initialState])).1 (Or.inl rfl)).1⟩

/-- C8: after any sequence of operations from the empty initial state,
isCurrentlyPlaying holds exactly when a record is stored, and the
serialized snapshot envelope has a null song exactly when playing is
false. -/
theorem store_playing_iff_record (ops : List Op) :
    ((runOps ops).isCurrentlyPlaying = true ↔ (runOps ops).currentlyListeningSong ≠ none) ∧
    ((currentlyListeningJSON (runOps ops)).Data.Song = none ↔
      (currentlyListeningJSON (runOps ops)).Data.Playing = false) := by
  have h := (storeInv_runOps ops).1
  constructor
  · rw [h, Option.isSome_iff_ne_none]
  · simp only [currentlyListeningJSON, h]
    cases (runOps ops).currentlyListeningSong <;> simp

theorem setListeningHandler_not_stale (s : ServerState) (cur : SetListening)
    (h : setIsStale s cur.StartedAt = false) :
    setListeningHandler s (some cur) = setSuccess cur := by
  obtain ⟨song, ts, playing⟩ := s
  cases song with
  | none => cases ts <;> rfl
  | some r =>
    cases ts with
    | none => rfl
    | some t =>
      simp only [setIsStale, decide_eq_false_iff_not] at h
      simp [setListeningHandler, h]

/-- C2 counterexample: after a clear with EndedAt 100 the stored
timestamp is 100, yet a set with StartedAt 50 (strictly below it) is
admitted because no record is stored: the state changes, a broadcast
goes out and the reply is 200, refuting the claim that every call with
an older event time is rejected with the store unchanged. -/
theorem stale_set_after_clear_admitted :
    (clearListeningHandler initialState (some ⟨100⟩)).state.currentTimeStamp = some 100 ∧
    (50 : Int) < 100 ∧
    (setListeningHandler (clearListeningHandler initialState (some ⟨100⟩)).state
        (some ⟨"a", "b", "t", 50, "0123456789"⟩)).state
      ≠ (clearListeningHandler initialState (some ⟨100⟩)).state ∧
    (setListeningHandler (clearListeningHandler initialState (some ⟨100⟩)).state
        (some ⟨"a", "b", "t", 50, "0123456789"⟩)).broadcasts ≠ [] ∧
    replyStatus (setListeningHandler (clearListeningHandler initialState (some ⟨100⟩)).state
        (some ⟨"a", "b", "t", 50, "0123456789"⟩)).response = some 200 := by
  decide

/-- C2 amended: a call whose event time is strictly below the stored
timestamp fails with a 400 reply, no broadcast and an unchanged store,
provided it is a clear or a set issued while a record is stored; a set
issued while no record is stored is exempt from the stale check and is
admitted. -/
theorem stale_rejected_unless_recordless_set (s : ServerState) (op : Op) (ts : Int)
    (hts : s.currentTimeStamp = some ts) (hlt : op.eventTime < ts)
    (hguard : s.currentlyListeningSong.isSome = true ∨ op.isClear = true) :
    (applyOp s op).state = s ∧ (applyOp s op).broadcasts = [] ∧
      ∃ m, (applyOp s op).response = HttpReply.reply 400 m := by
  obtain ⟨song, ts0, playing⟩ := s
  replace hts : ts0 = some ts := hts
  subst hts
  cases op with
  | set cur =>
    replace hlt : cur.StartedAt < ts := hlt
    have hsong : ∃ r, song = some r := by
      rcases hguard with h | h
      · exact Option.isSome_iff_exists.mp h
      · simp [Op.isClear] at h
    obtain ⟨r, rfl⟩ := hsong
    refine ⟨?_, ?_, ?_⟩
    · simp [applyOp, setListeningHandler, hlt]
    · simp [applyOp, setListeningHandler, hlt]
    · exact ⟨"cannot set currently playing song, started before latest known timestamp (started at "
          ++ toString cur.StartedAt ++ ", latest timestamp " ++ toString ts ++ ")",
        by simp [applyOp, setListeningHandler, hlt]⟩
  | clear cur =>
    replace hlt : cur.EndedAt < ts := hlt
    refine ⟨?_, ?_, ?_⟩
    · simp [applyOp, clearListeningHandler, hlt]
    · simp [applyOp, clearListeningHandler, hlt]
    · exact ⟨"cannot clear currently playing song, started before latest known timestamp (started at "
          ++ toString cur.EndedAt ++ ", latest timestamp " ++ toString ts ++ ")",
        by simp [applyOp, clearListeningHandler, hlt]⟩

/-- Witness for the amended C2 at a concrete stale clear. -/
theorem stale_rejected_unless_recordless_set_witness :
    (⟨none, some 100, false⟩ : ServerState).currentTimeStamp = some 100 ∧
    (Op.clear ⟨50⟩).eventTime < 100 ∧
    ((Op.clear ⟨50⟩).isClear = true) ∧
    (applyOp ⟨none, some 100, false⟩ (Op.clear ⟨50⟩)).state = ⟨none, some 100, false⟩ ∧
    (applyOp ⟨none, some 100, false⟩ (Op.clear ⟨50⟩)).broadcasts = [] ∧
    ∃ m, (applyOp ⟨none, some 100, false⟩ (Op.clear ⟨50⟩)).response = HttpReply.reply 400 m := by
  refine ⟨rfl, by decide, rfl, ?_⟩
  exact stale_rejected_unless_recordless_set ⟨none, some 100, false⟩ (Op.clear ⟨50⟩) 100
    rfl (by decide) (Or.inr rfl)

/-- C4 counterexample: submitting the identical set request twice from
the empty initial state succeeds both times (the stale check only
rejects strictly older timestamps), and the second call broadcasts
again, refuting the claimed StaleEvent rejection of the duplicate. -/
theorem duplicate_set_readmitted_counterexample :
    replyStatus (setListeningHandler initialState
        (some ⟨"a", "b", "t", 100, "0123456789"⟩)).response = some 200 ∧
    replyStatus (setListeningHandler
        (setListeningHandler initialState (some ⟨"a", "b", "t", 100, "0123456789"⟩)).state
        (some ⟨"a", "b", "t", 100, "0123456789"⟩)).response = some 200 ∧
    (setListeningHandler
        (setListeningHandler initialState (some ⟨"a", "b", "t", 100, "0123456789"⟩)).state
        (some ⟨"a", "b", "t", 100, "0123456789"⟩)).broadcasts.length = 1 := by
  decide

/-- C4 amended: after a first set call passes the stale check, the
identical second call also passes it (equal timestamps are readmitted),
leaves the store state exactly as the first call left it, and issues a
second broadcast of the same snapshot. -/
theorem duplicate_set_readmitted (s : ServerState) (cur : SetListening)
    (h : setIsStale s cur.StartedAt = false) :
    setIsStale (setListeningHandler s (some cur)).state cur.StartedAt = false ∧
    (setListeningHandler (setListeningHandler s (some cur)).state (some cur)).state
      = (setListeningHandler s (some cur)).state ∧
    (setListeningHandler (setListeningHandler s (some cur)).state (some cur)).broadcasts
      = [currentlyListeningJSON ⟨some cur, some cur.StartedAt, true⟩] := by
  have h2 : setIsStale (⟨some cur, some cur.StartedAt, true⟩ : ServerState) cur.StartedAt
      = false := by
    simp [setIsStale]
  rw [setListeningHandler_not_stale s cur h, setSuccess_state,
    setListeningHandler_not_stale _ cur h2, setSuccess_state, setSuccess_broadcasts]
  exact ⟨h2, rfl, rfl⟩

/-- Witness for the amended C4 at the empty initial state. -/
theorem duplicate_set_readmitted_witness :
    setIsStale initialState (100 : Int) = false ∧
    (setListeningHandler
        (setListeningHandler initialState (some ⟨"a", "b", "t", 100, "0123456789"⟩)).state
        (some ⟨"a", "b", "t", 100, "0123456789"⟩)).state
      = (setListeningHandler initialState (some ⟨"a", "b", "t", 100, "0123456789"⟩)).state :=
  ⟨rfl, (duplicate_set_readmitted initialState ⟨"a", "b", "t", 100, "0123456789"⟩ rfl).2.1⟩

/-- C6 counterexample: an undecodable body makes both handlers reply
with HTTP 500, not the claimed 400 (state and broadcasts are indeed
untouched). -/
theorem malformed_body_status_counterexample :
    (setListeningHandler initialState none).response
      = HttpReply.reply 500 "error parsing JSON body" ∧
    replyStatus (setListeningHandler initialState none).response ≠ some 400 ∧
    (clearListeningHandler initialState none).response
      = HttpReply.reply 500 "error parsing JSON body" ∧
    replyStatus (clearListeningHandler initialState none).response ≠ some 400 ∧
    (setListeningHandler initialState none).state = initialState ∧
    (setListeningHandler initialState none).broadcasts = [] ∧
    (clearListeningHandler initialState none).state = initialState ∧
    (clearListeningHandler initialState none).broadcasts = [] := by
  decide

/-- C6 amended: a POST /set-listening or /clear-listening request whose
body cannot be decoded is rejected with HTTP status 500 (the handlers
write StatusInternalServerError), with no state change and no
broadcast. -/
theorem malformed_body_rejected_500 (s : ServerState) :
    setListeningHandler s none = ⟨s, [], HttpReply.reply 500 "error parsing JSON body"⟩ ∧
    clearListeningHandler s none = ⟨s, [], HttpReply.reply 500 "error parsing JSON body"⟩ :=
  ⟨rfl, rfl⟩

/-- C9: an admitted set request whose Base64Image decodes to fewer than
10 characters (including the absent field, which decodes to the empty
string) mutates the store and issues the broadcast, but the reply
message slice Base64Image[0:10] is out of range, so the handler panics
and writes no success reply. -/
theorem short_image_panics_after_broadcast (s : ServerState) (cur : SetListening)
    (hfresh : setIsStale s cur.StartedAt = false)
    (hshort : cur.Base64Image.length < 10) :
    (setListeningHandler s (some cur)).state = ⟨some cur, some cur.StartedAt, true⟩ ∧
    (setListeningHandler s (some cur)).broadcasts
      = [currentlyListeningJSON ⟨some cur, some cur.StartedAt, true⟩] ∧
    (setListeningHandler s (some cur)).response = HttpReply.panicked := by
  rw [setListeningHandler_not_stale s cur hfresh]
  have hslice : goStringSlice cur.Base64Image 0 10 = none := by
    unfold goStringSlice
    rw [if_neg]
    omega
  unfold setSuccess
  rw [hslice]
  exact ⟨rfl, rfl, rfl⟩

/-- Witness for C9: a fresh set with an absent (empty) image. -/
theorem short_image_panics_after_broadcast_witness :
    setIsStale initialState (100 : Int) = false ∧
    ("" : String).length < 10 ∧
    (setListeningHandler initialState (some ⟨"a", "b", "t", 100, ""⟩)).response
      = HttpReply.panicked :=
  ⟨rfl, by decide,
    (short_image_panics_after_broadcast initialState ⟨"a", "b", "t", 100, ""⟩
      rfl (by decide)).2.2⟩

/-- C3 / code bug: ListenChanged requires all three of artist, album and
title to differ, so with a stored belief sharing artist and album but a
different title the poll cycle issues no set-listening call and keeps
the old belief, although the upstream track changed. -/
theorem title_change_not_detected :
    ListenChanged ⟨"A", "X", "T1", 50, ""⟩ ⟨⟨"A", "T2", "X"⟩⟩ = false ∧
    ("T1" : String) ≠ "T2" ∧
    pollCycle (some ⟨"A", "X", "T1", 50, ""⟩) 60
        (some (200, BodyDecode.ok ⟨⟨true, 1, [⟨⟨"A", "T2", "X"⟩⟩]⟩⟩))
        (HttpResult.response 200 true)
      = ⟨some ⟨"A", "X", "T1", 50, ""⟩, [], false⟩ := by
  decide

/-- C5 counterexample: a transport-level error on the push to the server
reaches log.Fatalf inside serverRequest, so the cycle that issues a
clear over a failing connection is fatal, refuting the claim that such
network errors are non-fatal and retried next cycle. -/
theorem push_net_error_fatal_counterexample :
    serverRequest HttpResult.netError = ServerRequestOutcome.fatal ∧
    (pollCycle (some ⟨"a", "b", "t", 5, ""⟩) 10
        (some (200, BodyDecode.ok ⟨⟨false, 0, []⟩⟩)) HttpResult.netError).fatal = true := by
  decide

/-- C5 amended: an HTTP error status from the Ingress Control Surface is
non-fatal (serverRequest only prints and the cycle continues), but a
transport-level network error on the push reaches log.Fatalf and
terminates the process. -/
theorem push_http_error_nonfatal_net_error_fatal (belief : Option SetListening) (now : Int)
    (status : Nat) (resp : ListenBrainzResponse) :
    (pollCycle belief now (some (200, BodyDecode.ok resp))
        (HttpResult.response status true)).fatal = false ∧
    serverRequest HttpResult.netError = ServerRequestOutcome.fatal := by
  refine ⟨?_, rfl⟩
  have hok : serverRequest (HttpResult.response status true) = ServerRequestOutcome.ok := rfl
  simp only [pollCycle]
  rw [if_neg (by norm_num)]
  split
  · rw [hok]
  · split
    · split
      · rw [hok]
      · rfl
    · rfl

/-- C7: a connection error or a non-200 status from the upstream source
leaves the belief unchanged, issues no call and continues (the loop
sleeps and retries), while an undecodable upstream payload halts the
process (log.Fatalf) with belief untouched and no call issued. -/
theorem upstream_failure_modes (belief : Option SetListening) (now : Int)
    (push : HttpResult) (status : Nat) (body : BodyDecode) (hst : status ≠ 200) :
    pollCycle belief now none push = ⟨belief, [], false⟩ ∧
    pollCycle belief now (some (status, body)) push = ⟨belief, [], false⟩ ∧
    pollCycle belief now (some (200, BodyDecode.failure)) push = ⟨belief, [], true⟩ := by
  refine ⟨rfl, ?_, rfl⟩
  simp only [pollCycle]
  rw [if_pos hst]

/-- Witness for C7 at a concrete failing status. -/
theorem upstream_failure_modes_witness :
    (404 : Nat) ≠ 200 ∧
    pollCycle none 0 (some (404, BodyDecode.failure)) HttpResult.netError
      = ⟨none, [], false⟩ :=
  ⟨by decide,
    (upstream_failure_modes none 0 HttpResult.netError 404 BodyDecode.failure
      (by decide)).2.1⟩

/-- C10: an upstream response with a non-empty listens list but
playing_now false or a zero count triggers neither branch of the cycle:
no clear (NoSongPlaying is false), no set (CurrentlyPlaying is nil), and
the belief is unchanged whatever it was. -/
theorem listens_without_playing_now_noop (belief : Option SetListening) (now : Int)
    (push : HttpResult) (resp : ListenBrainzResponse)
    (hne : resp.Payload.Listens ≠ [])
    (hnp : resp.Payload.Playing_now = false ∨ resp.Payload.Count = 0) :
    pollCycle belief now (some (200, BodyDecode.ok resp)) push = ⟨belief, [], false⟩ := by
  have h1 : NoSongPlaying resp = false := by
    unfold NoSongPlaying
    simp only [beq_eq_false_iff_ne, ne_eq, List.length_eq_zero]
    exact hne
  have h2 : CurrentlyPlaying resp = none := by
    unfold CurrentlyPlaying
    rcases hnp with h | h
    · by_cases hc : resp.Payload.Count = 0
      · rw [if_pos hc]
      · rw [if_neg hc, if_neg (by simp [h])]
    · rw [if_pos h]
  simp only [pollCycle]
  rw [if_neg (by norm_num), h1]
  simp only [Bool.false_and, Bool.false_eq_true, if_false]
  rw [h2]

/-- Witness for C10: one listen in the list, playing_now false. -/
theorem listens_without_playing_now_noop_witness :
    ((⟨⟨false, 1, [⟨⟨"A", "T", "X"⟩⟩]⟩⟩ : ListenBrainzResponse).Payload.Listens ≠ []) ∧
    pollCycle (some ⟨"a", "b", "t", 5, ""⟩) 10
        (some (200, BodyDecode.ok ⟨⟨false, 1, [⟨⟨"A", "T", "X"⟩⟩]⟩⟩)) HttpResult.netError
      = ⟨some ⟨"a", "b", "t", 5, ""⟩, [], false⟩ :=
  ⟨by decide,
    listens_without_playing_now_noop (some ⟨"a", "b", "t", 5, ""⟩) 10 HttpResult.netError
      ⟨⟨false, 1, [⟨⟨"A", "T", "X"⟩⟩]⟩⟩ (by decide) (Or.inl rfl)⟩

end CurrentlyListening
